import Mathlib

/-!
Red Day DCA Alerter — a verification development.

Shallow embedding of the trigger state machine of the Red Day DCA Alerter
(`red_day_dca_alerter/main.py` and `trigger_now.py`).

Prices are embedded as exact rationals (`ℚ`); UTC calendar dates and
timestamps as strings, exactly as the Python code stores them
(`"%Y-%m-%d"` strings compared with `==`/`!=`).  The durable state file is
threaded explicitly: each evaluation cycle receives the store contents
(what `load_state` would return), and returns the new store contents
together with the chronological list of external effects (persistence
attempts and notification sends) it performed.
-/

namespace RedDayDCA

/-- Constant `MAX_TRIGGERS = 15` from the configuration block of `main.py`. -/
def MAX_TRIGGERS : Nat := 15

/-- Constant `INTRADAY_DIP_THRESHOLD = -4.7` from `main.py`. -/
def INTRADAY_DIP_THRESHOLD : ℚ := -47/10

/-- Constant `CLOSE_TO_CLOSE_THRESHOLD = -3.3` from `main.py`. -/
def CLOSE_TO_CLOSE_THRESHOLD : ℚ := -33/10

/-- Broker recipient address from the configuration block. -/
def BROKER_EMAIL : String := "jake@calebandbrown.com"

/-- Personal recipient address from the configuration block. -/
def PERSONAL_EMAIL : String := "lewis@jackson.ventures"

/-- Classification of a fired trigger.  `main.py` stores a formatted
string in the record's `type` field ("Intraday dip (...)",
"Close-to-close (...)"); `trigger_now.py` stores "Manual trigger".  We
abstract the formatted string to its classification tag. -/
inductive TriggerType
  | IntradayDip
  | CloseToClose
  | Manual
  deriving DecidableEq

/-- One entry of `trigger_history`.  The dict built by
`execute_trigger` in `main.py` has keys `number, date, time, price,
yesterday_close, drop_pct, type`; the dict built by `trigger_now.py`
omits `yesterday_close` and `drop_pct`, so those two fields are
`Option`s, with `none` meaning the key is absent. -/
structure TriggerRecord where
  number : Nat
  date : String
  time : String
  price : ℚ
  yesterday_close : Option ℚ
  drop_pct : Option ℚ
  ttype : TriggerType
  deriving DecidableEq

/-- The persisted trigger state, as produced by `load_state` in
`main.py` (all five keys present). -/
structure TriggerState where
  trigger_count : Nat
  last_trigger_date : Option String
  yesterday_close : Option ℚ
  yesterday_close_date : Option String
  trigger_history : List TriggerRecord
  deriving DecidableEq

/-- The `default_state` dict of `load_state`. -/
def default_state : TriggerState :=
  { trigger_count := 0
    last_trigger_date := none
    yesterday_close := none
    yesterday_close_date := none
    trigger_history := [] }

/-- The raw contents of the state file as parsed JSON: any of the five
keys may be absent (outer `none`).  For the two date fields and the
close field the stored value itself may be JSON `null` (inner `none`). -/
structure StoredState where
  trigger_count : Option Nat
  last_trigger_date : Option (Option String)
  yesterday_close : Option (Option ℚ)
  yesterday_close_date : Option (Option String)
  trigger_history : Option (List TriggerRecord)
  deriving DecidableEq

/-- Function `load_state` from `main.py`: if the file is absent or unreadable
(`none`) return the default state; otherwise merge the parsed dict with
the defaults key by key, back-filling every missing key. -/
def load_state : Option StoredState → TriggerState
  | none => default_state
  | some s =>
    { trigger_count := s.trigger_count.getD 0
      last_trigger_date := s.last_trigger_date.getD none
      yesterday_close := s.yesterday_close.getD none
      yesterday_close_date := s.yesterday_close_date.getD none
      trigger_history := s.trigger_history.getD [] }

/-- The full default dict of `trigger_now.py`'s `load_state`, with all
five keys present. -/
def trigger_now_default : StoredState :=
  { trigger_count := some 0
    last_trigger_date := some none
    yesterday_close := some none
    yesterday_close_date := some none
    trigger_history := some [] }

/-- Function `load_state` from `trigger_now.py`: if the file is absent or
unreadable return the default dict, otherwise return the parsed dict
unchanged — it performs no per-key merge, so keys missing from the file
stay missing in the result. -/
def trigger_now_load_state : Option StoredState → StoredState
  | none => trigger_now_default
  | some s => s

/-- Function `save_state` from `main.py` writes the state to the file but
catches and logs every exception.  `ok` says whether the write
succeeded; on failure the durable store keeps its previous contents and
control returns normally to the caller. -/
def save_state (store s : TriggerState) (ok : Bool) : TriggerState :=
  if ok then s else store

/-- Chronological record of an external effect performed by a cycle. -/
inductive Event
  /-- a `save_state(state)` call from `main.py`, with the state it tried
  to write and whether the write succeeded -/
  | persistAttempt (s : TriggerState) (ok : Bool)
  /-- the `save_state(state)` call of `trigger_now.py` (raw dict) -/
  | persistStored (s : StoredState)
  /-- a `send_email(recipient, ...)` call -/
  | send (recipient : String)
  /-- the `send_completion_email()` call -/
  | sendCompletion
  deriving DecidableEq

/-- Is this event a notification send? -/
def Event.isSend : Event → Bool
  | .send _ => true
  | .sendCompletion => true
  | _ => false

/-- Predicate `sendsAfterPersist evs seen` is true when every notification send in
`evs` comes after some persistence call (`seen` records whether one was
already encountered). -/
def sendsAfterPersist : List Event → Bool → Bool
  | [], _ => true
  | .persistAttempt _ _ :: es, _ => sendsAfterPersist es true
  | .persistStored _ :: es, _ => sendsAfterPersist es true
  | .send _ :: es, seen => seen && sendsAfterPersist es seen
  | .sendCompletion :: es, seen => seen && sendsAfterPersist es seen

/-- The events of a result of `trigger_now.py`'s main block
(empty when the script crashed before reaching its sends). -/
def eventsOf : Except String (StoredState × List Event) → List Event
  | .ok (_, evs) => evs
  | .error _ => []

/-- The final stored dict of a result of `trigger_now.py`'s main block. -/
def stateOf : Except String (StoredState × List Event) → Option StoredState
  | .ok (s, _) => some s
  | .error _ => none

/-- Formula `drop_pct = ((current_price - yesterday_close) / yesterday_close) * 100`,
the percentage-drop formula shared by `check_and_trigger` and
`check_daily_close`. -/
def drop_percent (current_price yesterday_close : ℚ) : ℚ :=
  (current_price - yesterday_close) / yesterday_close * 100

/-- Function `execute_trigger` from `main.py`: increment the count, build the
record, append it, set `last_trigger_date`, call `save_state`
(`saveOk` says whether that write succeeds — `save_state` swallows the
error either way), then send the broker and personal emails, and the
completion email when the new count reaches `MAX_TRIGGERS`.  Returns the
new in-memory state, the record, and the chronological effect list. -/
def execute_trigger (state : TriggerState) (current_price yesterday_close dp : ℚ)
    (ty : TriggerType) (today now : String) (saveOk : Bool) :
    TriggerState × TriggerRecord × List Event :=
  let count' := state.trigger_count + 1
  let r : TriggerRecord :=
    { number := count'
      date := today
      time := now
      price := current_price
      yesterday_close := some yesterday_close
      drop_pct := some dp
      ttype := ty }
  let s' : TriggerState :=
    { state with
      trigger_count := count'
      last_trigger_date := some today
      trigger_history := state.trigger_history ++ [r] }
  (s', r,
    Event.persistAttempt s' saveOk :: Event.send BROKER_EMAIL ::
      Event.send PERSONAL_EMAIL ::
      (if count' ≥ MAX_TRIGGERS then [Event.sendCompletion] else []))

/-- Why an evaluation cycle did not fire.  The code has no input
validation branch; `InvalidInput` is included from the spec's taxonomy
so that its absence from the code can be stated. -/
inductive NoFireReason
  | Complete
  | AlreadyFiredToday
  | MissingReference
  | MissingPrice
  | MissingData
  | ThresholdNotMet
  | InvalidInput
  deriving DecidableEq

/-- Outcome of one evaluation cycle. -/
inductive CycleOutcome
  | noFire (reason : NoFireReason)
  | fired (r : TriggerRecord)
  deriving DecidableEq

/-- Function `check_and_trigger` from `main.py`, as a function of the store
contents (what `load_state` returns), today's UTC date, the current
timestamp, the fetched `(yesterday_close, yesterday_date)` (or `none`
when the fetch failed), the fetched current price (or `none`), and the
success of the refresh write and of the trigger write.  Returns the new
store contents, the effect list, and the outcome. -/
def check_and_trigger (store : TriggerState) (today now : String)
    (fetched : Option (ℚ × String)) (price : Option ℚ)
    (refreshOk trigOk : Bool) : TriggerState × List Event × CycleOutcome :=
  if store.trigger_count ≥ MAX_TRIGGERS then
    (store, [], .noFire .Complete)
  else if store.last_trigger_date = some today then
    (store, [], .noFire .AlreadyFiredToday)
  else
    match fetched with
    | none => (store, [], .noFire .MissingReference)
    | some (yclose, ydate) =>
      let refreshed := store.yesterday_close_date ≠ some ydate
      let state₁ :=
        if refreshed then
          { store with yesterday_close := some yclose, yesterday_close_date := some ydate }
        else store
      let store₁ := if refreshed then save_state store state₁ refreshOk else store
      let evs₁ := if refreshed then [Event.persistAttempt state₁ refreshOk] else []
      match price with
      | none => (store₁, evs₁, .noFire .MissingPrice)
      | some current_price =>
        let dp := drop_percent current_price yclose
        if dp ≤ INTRADAY_DIP_THRESHOLD then
          let res := execute_trigger state₁ current_price yclose dp .IntradayDip today now trigOk
          (save_state store₁ res.1 trigOk, evs₁ ++ res.2.2, .fired res.2.1)
        else
          (store₁, evs₁, .noFire .ThresholdNotMet)

/-- Function `check_daily_close` from `main.py`: the close-to-close evaluation.
`today_close` is the result of `get_today_close()` and
`yesterday_close` that of `get_binance_daily_close(1)` (its date is
discarded by the Python code).  No refresh write happens here. -/
def check_daily_close (store : TriggerState) (today now : String)
    (today_close yesterday_close : Option ℚ) (trigOk : Bool) :
    TriggerState × List Event × CycleOutcome :=
  if store.trigger_count ≥ MAX_TRIGGERS then
    (store, [], .noFire .Complete)
  else if store.last_trigger_date = some today then
    (store, [], .noFire .AlreadyFiredToday)
  else
    match today_close, yesterday_close with
    | some tc, some yc =>
      let dp := drop_percent tc yc
      if dp ≤ CLOSE_TO_CLOSE_THRESHOLD then
        let res := execute_trigger store tc yc dp .CloseToClose today now trigOk
        (save_state store res.1 trigOk, res.2.2, .fired res.2.1)
      else
        (store, [], .noFire .ThresholdNotMet)
    | _, _ => (store, [], .noFire .MissingData)

/-- The history record appended by `trigger_now.py`: only the keys
`number, date, time, price, type` — no `yesterday_close`, no
`drop_pct`. -/
def manual_record (n : Nat) (today now : String) (price : ℚ) : TriggerRecord :=
  { number := n
    date := today
    time := now
    price := price
    yesterday_close := none
    drop_pct := none
    ttype := .Manual }

/-- The `__main__` block of `trigger_now.py`: load the raw dict, read
`trigger_count` (a `KeyError` if the key is absent), send the broker and
personal emails, then increment the count, set `last_trigger_date`,
append the manual record to `trigger_history` (a `KeyError` if absent)
and save.  No terminal guard, no same-day guard. -/
def trigger_now_main (file : Option StoredState) (btc_price : ℚ)
    (today now : String) : Except String (StoredState × List Event) := do
  let state := trigger_now_load_state file
  let count ←
    match state.trigger_count with
    | none => Except.error "trigger_count"
    | some c => Except.ok c
  let current := count + 1
  let evs₁ := [Event.send BROKER_EMAIL, Event.send PERSONAL_EMAIL]
  let hist ←
    match state.trigger_history with
    | none => Except.error "trigger_history"
    | some h => Except.ok h
  let r := manual_record current today now btc_price
  let s' : StoredState :=
    { state with
      trigger_count := some current
      last_trigger_date := some (some today)
      trigger_history := some (hist ++ [r]) }
  Except.ok (s', evs₁ ++ [Event.persistStored s'])

/-- One table row of the completion email of `main.py`: the f-string
reads `t['number']`, `t['date']`, `t['price']` and `t['drop_pct']`; a
record without the `drop_pct` key raises a `KeyError`. -/
def historyRow (t : TriggerRecord) : Except String (Nat × String × ℚ × ℚ) :=
  match t.drop_pct with
  | none => Except.error "drop_pct"
  | some d => Except.ok (t.number, t.date, t.price, d)

/-- The history-table loop of `send_completion_email`: build a row for
each record in order, failing at the first record whose `drop_pct` key
is absent. -/
def buildHistoryRows : List TriggerRecord → Except String (List (Nat × String × ℚ × ℚ))
  | [] => Except.ok []
  | t :: ts => do
    let r ← historyRow t
    let rest ← buildHistoryRows ts
    Except.ok (r :: rest)

/-- Function `send_completion_email` from `main.py`, applied to the loaded
state: it renders the history table (which can raise) and sends the
summary to the personal address. -/
def send_completion_email (state : TriggerState) :
    Except String (String × List (Nat × String × ℚ × ℚ)) := do
  let rows ← buildHistoryRows state.trigger_history
  Except.ok (PERSONAL_EMAIL, rows)

/-- The inputs of one scheduled cycle of `main.py`: either an intraday
check or the 00:05 UTC daily-close check. -/
inductive CycleInput
  | intraday (today now : String) (fetched : Option (ℚ × String))
      (price : Option ℚ) (refreshOk trigOk : Bool)
  | daily (today now : String) (tc yc : Option ℚ) (trigOk : Bool)

/-- Apply one cycle to the durable store. -/
def applyCycle (s : TriggerState) : CycleInput → TriggerState
  | .intraday today now fetched price rOk tOk =>
    (check_and_trigger s today now fetched price rOk tOk).1
  | .daily today now tc yc tOk =>
    (check_daily_close s today now tc yc tOk).1

/-- Run a sequence of scheduled cycles against the durable store. -/
def runCycles (s : TriggerState) (l : List CycleInput) : TriggerState :=
  l.foldl applyCycle s

/-- The §3 counting invariant: `trigger_count == len(trigger_history)`
and the records are numbered `1..N` in insertion order. -/
def CountMatchesHistory (s : TriggerState) : Prop :=
  s.trigger_count = s.trigger_history.length ∧
  s.trigger_history.map TriggerRecord.number =
    List.range' 1 s.trigger_history.length

/-! ## Concrete fixtures used by witnesses and counterexamples -/

/-- A terminal state: 15 triggers already fired (history elided). -/
def state15 : TriggerState := { default_state with trigger_count := 15 }

/-- A terminal state that also fired on 2026-01-01. -/
def state15today : TriggerState :=
  { default_state with trigger_count := 15, last_trigger_date := some "2026-01-01" }

/-- A partially-written state file: only the `trigger_count` key is
present. -/
def sparse_file : StoredState :=
  { trigger_count := some 3
    last_trigger_date := none
    yesterday_close := none
    yesterday_close_date := none
    trigger_history := none }

/-- A complete state file recording 15 fired triggers, the last on
2026-01-01. -/
def full15_file : StoredState :=
  { trigger_count := some 15
    last_trigger_date := some (some "2026-01-01")
    yesterday_close := some (some 100)
    yesterday_close_date := some (some "2025-12-31")
    trigger_history := some [] }

/-- A state whose history holds one record written by the manual
script. -/
def manual_state : TriggerState :=
  { default_state with
    trigger_count := 1
    last_trigger_date := some "2026-01-01"
    trigger_history := [manual_record 1 "2026-01-01" "2026-01-01T00:00:00" 97000] }

/-- The state after the reference-close refresh of the C5/C7 scenario:
the empty state with yesterday's close 100 of 2026-01-01 adopted. -/
def refreshed0 : TriggerState :=
  { default_state with
    yesterday_close := some 100
    yesterday_close_date := some "2026-01-01" }

/-- The record of the C5 scenario: price 90 against close 100, a 10%
drop, fired intraday on 2026-01-02. -/
def drop10_record : TriggerRecord :=
  { number := 1
    date := "2026-01-02"
    time := "T"
    price := 90
    yesterday_close := some 100
    drop_pct := some (-10)
    ttype := .IntradayDip }

/-- The in-memory state after the C5 fire (count 1, record appended). -/
def drop10_state : TriggerState :=
  { refreshed0 with
    trigger_count := 1
    last_trigger_date := some "2026-01-02"
    trigger_history := [drop10_record] }

end RedDayDCA

namespace RedDayDCA

/-! ## Claim C3: the terminal check comes first -/

/-- C3: for every state with `trigger_count ≥ MAX_TRIGGERS` and every
price input, both `check_and_trigger` and `check_daily_close` return
`NoFire(Complete)`, leave the store untouched and perform no external
effect — regardless of the dedup, reference and threshold inputs, so
the terminal check precedes them all. -/
theorem C3_terminal_first (store : TriggerState) (today now : String)
    (fetched : Option (ℚ × String)) (price : Option ℚ) (rOk tOk : Bool)
    (tc yc : Option ℚ) (tOk₂ : Bool)
    (h : store.trigger_count ≥ MAX_TRIGGERS) :
    check_and_trigger store today now fetched price rOk tOk =
      (store, [], .noFire .Complete) ∧
    check_daily_close store today now tc yc tOk₂ =
      (store, [], .noFire .Complete) := by
  constructor
  · unfold check_and_trigger
    rw [if_pos h]
  · unfold check_daily_close
    rw [if_pos h]

/-- Witness for C3 at a concrete terminal state. -/
theorem C3_terminal_first_witness :
    check_and_trigger state15 "2026-01-02" "T" (some (100, "2026-01-01"))
        (some 90) true true = (state15, [], .noFire .Complete) ∧
    check_daily_close state15 "2026-01-02" "T" (some 90) (some 100) true =
      (state15, [], .noFire .Complete) :=
  C3_terminal_first state15 "2026-01-02" "T" (some (100, "2026-01-01"))
    (some 90) true true (some 90) (some 100) true (by decide)

/-! ## Claim C6: drop formula and inclusive intraday boundary -/

/-- C6: `drop_percent` is `(current - reference) / reference * 100`;
at `reference_close = 100`, `current_price = 95.3` the drop is exactly
`-4.7` and the intraday evaluation fires (inclusive `≤` boundary) with
an `IntradayDip` record carrying that drop; at `95.31` the drop is
`-4.69` and it does not fire. -/
theorem C6_boundary :
    drop_percent (953/10) 100 = -47/10 ∧
    drop_percent (9531/100) 100 = -469/100 ∧
    (check_and_trigger default_state "2026-01-02" "T"
        (some (100, "2026-01-01")) (some (953/10)) true true).2.2 =
      .fired { number := 1, date := "2026-01-02", time := "T",
               price := 953/10, yesterday_close := some 100,
               drop_pct := some (-47/10), ttype := .IntradayDip } ∧
    (check_and_trigger default_state "2026-01-02" "T"
        (some (100, "2026-01-01")) (some (9531/100)) true true).2.2 =
      .noFire .ThresholdNotMet := by
  refine ⟨by norm_num [drop_percent], by norm_num [drop_percent], ?_, ?_⟩
  · norm_num [check_and_trigger, execute_trigger, drop_percent, save_state,
      default_state, MAX_TRIGGERS, INTRADAY_DIP_THRESHOLD]
    simp
  · norm_num [check_and_trigger, execute_trigger, drop_percent, save_state,
      default_state, MAX_TRIGGERS, INTRADAY_DIP_THRESHOLD]
    simp

/-! ## Claim C9: loading and back-filling -/

/-- C9 counterexample: on a file holding only the `trigger_count` key,
`trigger_now.py`'s `load_state` returns the parsed dict unchanged — the
`trigger_history` key is still absent — while `main.py`'s `load_state`
back-fills it.  The claim's back-filling statement fails for the
`trigger_now.py` loader it cites. -/
theorem C9_counterexample :
    (trigger_now_load_state (some sparse_file)).trigger_history = none ∧
    (load_state (some sparse_file)).trigger_history = [] := by
  constructor <;> rfl

/-- C9 amended: `main.py`'s `load_state` returns the zero-valued
default when no file exists and back-fills every missing field with its
default otherwise; `trigger_now.py`'s `load_state` back-fills nothing —
it returns the parsed file as is, using the full default dict only when
the file is absent or unreadable. -/
theorem C9_load_backfill :
    (∀ s : StoredState,
      load_state (some s) =
        { trigger_count := s.trigger_count.getD 0
          last_trigger_date := s.last_trigger_date.getD none
          yesterday_close := s.yesterday_close.getD none
          yesterday_close_date := s.yesterday_close_date.getD none
          trigger_history := s.trigger_history.getD [] }) ∧
    load_state none = default_state ∧
    (∀ s : StoredState, trigger_now_load_state (some s) = s) ∧
    trigger_now_load_state none = trigger_now_default := by
  exact ⟨fun s => rfl, rfl, fun s => rfl, rfl⟩

/-! ## Shared helper lemmas -/

/-- The optional completion send at the tail of the executor's trace
keeps every send after the persist already seen. -/
theorem sendsAfterPersist_ifCompletion (c : Prop) [Decidable c] :
    sendsAfterPersist (if c then [Event.sendCompletion] else []) true = true := by
  split <;> rfl

/-! ## Claim C1: persist before notify -/

/-- C1 counterexample: the manual script `trigger_now.py` sends both
trigger notifications before its only persistence call — on a fresh
store its effect trace has a send with no preceding persist, so it is a
fire path that notifies while the state reflecting the trigger is still
unpersisted. -/
theorem C1_counterexample :
    sendsAfterPersist
      (eventsOf (trigger_now_main none 97000 "2026-01-01" "T")) false = false ∧
    (eventsOf (trigger_now_main none 97000 "2026-01-01" "T")).any Event.isSend =
      true := by
  constructor <;> rfl

/-- C1 amended: in the automated executor (`execute_trigger` of
`main.py`) the very first effect is the persistence attempt of the
fully updated state, and the broker, personal and completion sends all
come after it; every `check_and_trigger` cycle trace therefore has all
sends after a persistence call.  The manual script is the exception
recorded in the counterexample. -/
theorem C1_executor_persists_before_notify :
    (∀ (state : TriggerState) (p yc d : ℚ) (ty : TriggerType)
        (today now : String) (ok : Bool),
      (execute_trigger state p yc d ty today now ok).2.2 =
        Event.persistAttempt (execute_trigger state p yc d ty today now ok).1 ok ::
          Event.send BROKER_EMAIL :: Event.send PERSONAL_EMAIL ::
          (if state.trigger_count + 1 ≥ MAX_TRIGGERS then [Event.sendCompletion]
           else [])) ∧
    (∀ (store : TriggerState) (today now : String)
        (fetched : Option (ℚ × String)) (price : Option ℚ) (rOk tOk : Bool),
      sendsAfterPersist
        (check_and_trigger store today now fetched price rOk tOk).2.1 false =
        true) := by
  constructor
  · intro state p yc d ty today now ok
    rfl
  · intro store today now fetched price rOk tOk
    by_cases h1 : store.trigger_count ≥ MAX_TRIGGERS
    · simp [check_and_trigger, h1, sendsAfterPersist]
    by_cases h2 : store.last_trigger_date = some today
    · simp [check_and_trigger, h1, h2, sendsAfterPersist]
    rcases fetched with _ | ⟨yclose, ydate⟩
    · simp [check_and_trigger, h1, h2, sendsAfterPersist]
    rcases price with _ | p
    · by_cases h3 : store.yesterday_close_date = some ydate <;>
        simp [check_and_trigger, h1, h2, h3, sendsAfterPersist]
    by_cases h3 : store.yesterday_close_date = some ydate <;>
      by_cases h4 : drop_percent p yclose ≤ INTRADAY_DIP_THRESHOLD <;>
        simp [check_and_trigger, execute_trigger, h1, h2, h3, h4,
          sendsAfterPersist, sendsAfterPersist_ifCompletion, save_state]

/-! ## Claim C2: the bound and the manual-path guards -/

/-- C2 counterexample: running the manual script against a persisted
state that is already terminal (15 triggers, the last fired on
2026-01-01) and on that same date still sends both notifications and
writes `trigger_count = 16 > MAX_TRIGGERS` — the manual path enforces
neither the terminal guard nor the same-day guard. -/
theorem C2_counterexample :
    full15_file.trigger_count = some 15 ∧
    (15 ≥ MAX_TRIGGERS) ∧
    full15_file.last_trigger_date = some (some "2026-01-01") ∧
    (stateOf (trigger_now_main (some full15_file) 97000 "2026-01-01" "T")).map
        StoredState.trigger_count = some (some 16) ∧
    (eventsOf (trigger_now_main (some full15_file) 97000 "2026-01-01" "T")).any
        Event.isSend = true := by
  refine ⟨rfl, by decide, rfl, rfl, rfl⟩

/-- C2 amended: the automated paths preserve the bound — starting at or
below `MAX_TRIGGERS`, neither `check_and_trigger` nor
`check_daily_close` ever pushes the persisted `trigger_count` above it —
but the manual script enforces no guard at all: whenever its load finds
a `trigger_count` key and a `trigger_history` key it increments the
count unconditionally, so it can exceed `MAX_TRIGGERS` and refire on the
same day. -/
theorem C2_guards (store : TriggerState) (today now : String)
    (fetched : Option (ℚ × String)) (price : Option ℚ) (rOk tOk : Bool)
    (tc yc : Option ℚ) (tOk₂ : Bool)
    (file : Option StoredState) (p : ℚ) (today₂ now₂ : String)
    (c : Nat) (hs : List TriggerRecord)
    (hbound : store.trigger_count ≤ MAX_TRIGGERS)
    (hc : (trigger_now_load_state file).trigger_count = some c)
    (hh : (trigger_now_load_state file).trigger_history = some hs) :
    (check_and_trigger store today now fetched price rOk tOk).1.trigger_count ≤
      MAX_TRIGGERS ∧
    (check_daily_close store today now tc yc tOk₂).1.trigger_count ≤
      MAX_TRIGGERS ∧
    (stateOf (trigger_now_main file p today₂ now₂)).map
        StoredState.trigger_count = some (some (c + 1)) := by
  refine ⟨?_, ?_, ?_⟩
  · by_cases h1 : store.trigger_count ≥ MAX_TRIGGERS
    · simpa [check_and_trigger, h1] using hbound
    by_cases h2 : store.last_trigger_date = some today
    · simpa [check_and_trigger, h1, h2] using hbound
    rcases fetched with _ | ⟨yclose, ydate⟩
    · simpa [check_and_trigger, h1, h2] using hbound
    rcases price with _ | p
    · by_cases h3 : store.yesterday_close_date = some ydate <;>
        rcases rOk with _ | _ <;>
          simp [check_and_trigger, h1, h2, h3, save_state, hbound]
    by_cases h3 : store.yesterday_close_date = some ydate <;>
      by_cases h4 : drop_percent p yclose ≤ INTRADAY_DIP_THRESHOLD <;>
        rcases rOk with _ | _ <;> rcases tOk with _ | _ <;>
          simp [check_and_trigger, execute_trigger, h1, h2, h3, h4, save_state,
            hbound] <;>
          omega
  · by_cases h1 : store.trigger_count ≥ MAX_TRIGGERS
    · simpa [check_daily_close, h1] using hbound
    by_cases h2 : store.last_trigger_date = some today
    · simpa [check_daily_close, h1, h2] using hbound
    rcases tc with _ | t
    · simpa [check_daily_close, h1, h2] using hbound
    rcases yc with _ | y
    · simpa [check_daily_close, h1, h2] using hbound
    by_cases h4 : drop_percent t y ≤ CLOSE_TO_CLOSE_THRESHOLD <;>
      rcases tOk₂ with _ | _ <;>
        simp [check_daily_close, execute_trigger, h1, h2, h4, save_state,
          hbound] <;>
        omega
  · simp only [trigger_now_main, hc, hh]
    rfl

/-- Witness for C2 at concrete inputs. -/
theorem C2_guards_witness :
    (check_and_trigger default_state "2026-01-02" "T"
        (some (100, "2026-01-01")) (some 90) true true).1.trigger_count ≤
      MAX_TRIGGERS ∧
    (check_daily_close default_state "2026-01-02" "T" (some 90) (some 100)
        true).1.trigger_count ≤ MAX_TRIGGERS ∧
    (stateOf (trigger_now_main none 97000 "2026-01-01" "T")).map
        StoredState.trigger_count = some (some 1) :=
  C2_guards default_state "2026-01-02" "T" (some (100, "2026-01-01")) (some 90)
    true true (some 90) (some 100) true none 97000 "2026-01-01" "T" 0 []
    (by decide) rfl rfl

/-! ## Claim C5: persistence failure does not abort the executor -/

/-- C5 counterexample: a fire whose trigger write fails (`trigOk =
false`) still goes on to send both notifications — `save_state` catches
the error and `execute_trigger` continues, so the operation does not
abort and a notification is sent for the uncommitted fire (the durable
store keeps `trigger_count = 0`). -/
theorem C5_counterexample :
    check_and_trigger default_state "2026-01-02" "T"
        (some (100, "2026-01-01")) (some 90) true false =
      (refreshed0,
        [Event.persistAttempt refreshed0 true,
         Event.persistAttempt drop10_state false,
         Event.send BROKER_EMAIL, Event.send PERSONAL_EMAIL],
        .fired drop10_record) := by
  norm_num [check_and_trigger, execute_trigger, drop_percent, save_state,
    default_state, refreshed0, drop10_state, drop10_record, MAX_TRIGGERS,
    INTRADAY_DIP_THRESHOLD]
  simp

/-- C5 amended: `save_state` swallows the write error, so a fire with a
failing persistence still attempts both notification sends; the failed
write leaves the durable store unchanged (`save_state store s false =
store`), hence the increment is not committed and the next cycle, which
reloads the store, evaluates from the last successfully persisted
state: with a failing trigger write the durable `trigger_count` and
`trigger_history` never change. -/
theorem C5_persistence_failure :
    (∀ (state : TriggerState) (p yc d : ℚ) (ty : TriggerType)
        (today now : String),
      Event.send BROKER_EMAIL ∈ (execute_trigger state p yc d ty today now false).2.2 ∧
      Event.send PERSONAL_EMAIL ∈
        (execute_trigger state p yc d ty today now false).2.2) ∧
    (∀ store s : TriggerState, save_state store s false = store) ∧
    (∀ (store : TriggerState) (today now : String)
        (fetched : Option (ℚ × String)) (price : Option ℚ) (rOk : Bool),
      (check_and_trigger store today now fetched price rOk false).1.trigger_count =
        store.trigger_count ∧
      (check_and_trigger store today now fetched price rOk false).1.trigger_history =
        store.trigger_history) := by
  refine ⟨?_, fun store s => rfl, ?_⟩
  · intro state p yc d ty today now
    constructor <;> simp [execute_trigger]
  · intro store today now fetched price rOk
    by_cases h1 : store.trigger_count ≥ MAX_TRIGGERS
    · simp [check_and_trigger, h1]
    by_cases h2 : store.last_trigger_date = some today
    · simp [check_and_trigger, h1, h2]
    rcases fetched with _ | ⟨yclose, ydate⟩
    · simp [check_and_trigger, h1, h2]
    rcases price with _ | p
    · by_cases h3 : store.yesterday_close_date = some ydate <;>
        rcases rOk with _ | _ <;>
          simp [check_and_trigger, h1, h2, h3, save_state]
    by_cases h3 : store.yesterday_close_date = some ydate <;>
      by_cases h4 : drop_percent p yclose ≤ INTRADAY_DIP_THRESHOLD <;>
        rcases rOk with _ | _ <;>
          simp [check_and_trigger, execute_trigger, h1, h2, h3, h4, save_state]

/-! ## Claim C7: no input validation -/

/-- C7 counterexample: a non-positive current price reaches the
evaluator and is not rejected — with current price −1 against reference
close 100 the computed drop is −101% and the intraday trigger fires,
instead of returning `NoFire(InvalidInput)`. -/
theorem C7_counterexample :
    ((-1 : ℚ) ≤ 0) ∧
    (check_and_trigger default_state "2026-01-02" "T"
        (some (100, "2026-01-01")) (some (-1)) true true).2.2 =
      .fired { number := 1, date := "2026-01-02", time := "T",
               price := -1, yesterday_close := some 100,
               drop_pct := some (-101), ttype := .IntradayDip } := by
  refine ⟨by norm_num, ?_⟩
  norm_num [check_and_trigger, execute_trigger, drop_percent, save_state,
    default_state, MAX_TRIGGERS, INTRADAY_DIP_THRESHOLD]
  simp

/-- C7 amended: the evaluator has no input-validation branch at all —
no evaluation of either cycle ever returns `NoFire(InvalidInput)`; the
only inputs that stop a cycle are missing fetch results, and any fetched
rational value (positive or not) flows straight into the drop
computation. -/
theorem C7_no_invalid_input :
    (∀ (store : TriggerState) (today now : String)
        (fetched : Option (ℚ × String)) (price : Option ℚ) (rOk tOk : Bool),
      (check_and_trigger store today now fetched price rOk tOk).2.2 ≠
        .noFire .InvalidInput) ∧
    (∀ (store : TriggerState) (today now : String) (tc yc : Option ℚ)
        (tOk : Bool),
      (check_daily_close store today now tc yc tOk).2.2 ≠
        .noFire .InvalidInput) := by
  constructor
  · intro store today now fetched price rOk tOk
    by_cases h1 : store.trigger_count ≥ MAX_TRIGGERS
    · simp [check_and_trigger, h1]
    by_cases h2 : store.last_trigger_date = some today
    · simp [check_and_trigger, h1, h2]
    rcases fetched with _ | ⟨yclose, ydate⟩
    · simp [check_and_trigger, h1, h2]
    rcases price with _ | p
    · by_cases h3 : store.yesterday_close_date = some ydate <;>
        simp [check_and_trigger, h1, h2, h3]
    by_cases h3 : store.yesterday_close_date = some ydate <;>
      by_cases h4 : drop_percent p yclose ≤ INTRADAY_DIP_THRESHOLD <;>
        simp [check_and_trigger, h1, h2, h3, h4]
  · intro store today now tc yc tOk
    by_cases h1 : store.trigger_count ≥ MAX_TRIGGERS
    · simp [check_daily_close, h1]
    by_cases h2 : store.last_trigger_date = some today
    · simp [check_daily_close, h1, h2]
    rcases tc with _ | t
    · simp [check_daily_close, h1, h2]
    rcases yc with _ | y
    · simp [check_daily_close, h1, h2]
    by_cases h4 : drop_percent t y ≤ CLOSE_TO_CLOSE_THRESHOLD <;>
      simp [check_daily_close, h1, h2, h4]

/-! ## Claim C4: same-day dedup -/

/-- C4 counterexample: a state that already fired 15 triggers, the last
one today, yields `NoFire(Complete)` — not `NoFire(AlreadyFiredToday)`
as the claim states for *every* state with `last_trigger_date = today` —
because the terminal check runs first. -/
theorem C4_counterexample :
    state15today.last_trigger_date = some "2026-01-01" ∧
    (check_and_trigger state15today "2026-01-01" "T"
        (some (100, "2025-12-31")) (some 90) true true).2.2 =
      .noFire .Complete ∧
    (check_daily_close state15today "2026-01-01" "T" (some 90) (some 100)
        true).2.2 = .noFire .Complete ∧
    (CycleOutcome.noFire .Complete ≠ .noFire .AlreadyFiredToday) := by
  refine ⟨rfl, ?_, ?_, by simp⟩ <;>
    simp [check_and_trigger, check_daily_close, state15today, default_state,
      MAX_TRIGGERS]

/-- C4 amended: for every non-terminal state whose `last_trigger_date`
is today, both evaluations return `NoFire(AlreadyFiredToday)` with no
mutation and no send, even when the drop would clear both thresholds;
and (unconditionally) running either evaluation a second time on the
same date with unchanged inputs and successful writes leaves the
persisted `trigger_history` exactly as after the first run — no second
record for the date. -/
theorem C4_dedup (store : TriggerState) (today now : String)
    (fetched : Option (ℚ × String)) (price : Option ℚ) (rOk tOk : Bool)
    (tc yc : Option ℚ) (tOk₂ : Bool)
    (hcount : store.trigger_count < MAX_TRIGGERS)
    (hlast : store.last_trigger_date = some today) :
    check_and_trigger store today now fetched price rOk tOk =
      (store, [], .noFire .AlreadyFiredToday) ∧
    check_daily_close store today now tc yc tOk₂ =
      (store, [], .noFire .AlreadyFiredToday) ∧
    (∀ (s₂ : TriggerState) (d n : String) (f₂ : Option (ℚ × String))
        (p₂ : Option ℚ),
      (check_and_trigger (check_and_trigger s₂ d n f₂ p₂ true true).1
          d n f₂ p₂ true true).1.trigger_history =
        (check_and_trigger s₂ d n f₂ p₂ true true).1.trigger_history) ∧
    (∀ (s₂ : TriggerState) (d n : String) (t₂ y₂ : Option ℚ),
      (check_daily_close (check_daily_close s₂ d n t₂ y₂ true).1
          d n t₂ y₂ true).1.trigger_history =
        (check_daily_close s₂ d n t₂ y₂ true).1.trigger_history) := by
  have h1 : ¬ store.trigger_count ≥ MAX_TRIGGERS := by omega
  refine ⟨by simp [check_and_trigger, h1, hlast],
          by simp [check_daily_close, h1, hlast], ?_, ?_⟩
  · intro s₂ d n f₂ p₂
    by_cases g1 : s₂.trigger_count ≥ MAX_TRIGGERS
    · simp [check_and_trigger, g1]
    by_cases g2 : s₂.last_trigger_date = some d
    · simp [check_and_trigger, g1, g2]
    rcases f₂ with _ | ⟨yclose, ydate⟩
    · simp [check_and_trigger, g1, g2]
    rcases p₂ with _ | p
    · by_cases g3 : s₂.yesterday_close_date = some ydate <;>
        simp [check_and_trigger, save_state, g1, g2, g3]
    by_cases g4 : drop_percent p yclose ≤ INTRADAY_DIP_THRESHOLD
    · by_cases g3 : s₂.yesterday_close_date = some ydate <;>
        simp [check_and_trigger, execute_trigger, save_state, g1, g2, g3, g4] <;>
        split <;> rfl
    · by_cases g3 : s₂.yesterday_close_date = some ydate <;>
        simp [check_and_trigger, save_state, g1, g2, g3, g4]
  · intro s₂ d n t₂ y₂
    by_cases g1 : s₂.trigger_count ≥ MAX_TRIGGERS
    · simp [check_daily_close, g1]
    by_cases g2 : s₂.last_trigger_date = some d
    · simp [check_daily_close, g1, g2]
    rcases t₂ with _ | t
    · simp [check_daily_close, g1, g2]
    rcases y₂ with _ | y
    · simp [check_daily_close, g1, g2]
    by_cases g4 : drop_percent t y ≤ CLOSE_TO_CLOSE_THRESHOLD <;>
      simp [check_daily_close, execute_trigger, save_state, g1, g2, g4] <;>
      split <;> rfl

/-- Witness for C4 at a concrete non-terminal state that fired today. -/
theorem C4_dedup_witness :
    check_and_trigger manual_state "2026-01-01" "T" (some (100, "2025-12-31"))
        (some 90) true true = (manual_state, [], .noFire .AlreadyFiredToday) ∧
    check_daily_close manual_state "2026-01-01" "T" (some 90) (some 100) true =
      (manual_state, [], .noFire .AlreadyFiredToday) ∧
    (∀ (s₂ : TriggerState) (d n : String) (f₂ : Option (ℚ × String))
        (p₂ : Option ℚ),
      (check_and_trigger (check_and_trigger s₂ d n f₂ p₂ true true).1
          d n f₂ p₂ true true).1.trigger_history =
        (check_and_trigger s₂ d n f₂ p₂ true true).1.trigger_history) ∧
    (∀ (s₂ : TriggerState) (d n : String) (t₂ y₂ : Option ℚ),
      (check_daily_close (check_daily_close s₂ d n t₂ y₂ true).1
          d n t₂ y₂ true).1.trigger_history =
        (check_daily_close s₂ d n t₂ y₂ true).1.trigger_history) :=
  C4_dedup manual_state "2026-01-01" "T" (some (100, "2025-12-31")) (some 90)
    true true (some 90) (some 100) true (by decide) rfl

/-! ## Claim C8: monotonic counting -/

/-- One executed fire preserves the counting invariant: the new count is
the old plus one and the appended record carries that number. -/
theorem execute_trigger_preserves (state : TriggerState)
    (p yc d : ℚ) (ty : TriggerType) (today now : String) (ok : Bool)
    (h : CountMatchesHistory state) :
    CountMatchesHistory (execute_trigger state p yc d ty today now ok).1 := by
  obtain ⟨hc, hm⟩ := h
  refine ⟨?_, ?_⟩
  · simp [execute_trigger, hc]
  · simp [execute_trigger, hm, hc, List.range'_1_concat, Nat.add_comm]

/-- Every scheduled cycle of `main.py` preserves the counting
invariant, whatever inputs it sees and whether or not its writes
succeed. -/
theorem applyCycle_preserves (s : TriggerState) (i : CycleInput)
    (h : CountMatchesHistory s) : CountMatchesHistory (applyCycle s i) := by
  cases i with
  | intraday today now fetched price rOk tOk =>
    show CountMatchesHistory (check_and_trigger s today now fetched price rOk tOk).1
    by_cases g1 : s.trigger_count ≥ MAX_TRIGGERS
    · simpa [check_and_trigger, g1] using h
    by_cases g2 : s.last_trigger_date = some today
    · simpa [check_and_trigger, g1, g2] using h
    rcases fetched with _ | ⟨yclose, ydate⟩
    · simpa [check_and_trigger, g1, g2] using h
    rcases price with _ | p
    · by_cases g3 : s.yesterday_close_date = some ydate <;>
        rcases rOk with _ | _ <;>
          simpa [check_and_trigger, save_state, g1, g2, g3,
            CountMatchesHistory] using h
    by_cases g4 : drop_percent p yclose ≤ INTRADAY_DIP_THRESHOLD
    · by_cases g3 : s.yesterday_close_date = some ydate
      · rcases tOk with _ | _
        · rcases rOk with _ | _ <;>
            simpa [check_and_trigger, save_state, g1, g2, g3, g4,
              CountMatchesHistory] using h
        · have h' := execute_trigger_preserves s p yclose
            (drop_percent p yclose) .IntradayDip today now true h
          rcases rOk with _ | _ <;>
            simpa [check_and_trigger, save_state, g1, g2, g3, g4] using h'
      · have hst : CountMatchesHistory
            { s with yesterday_close := some yclose,
                     yesterday_close_date := some ydate } := by
          obtain ⟨hc, hm⟩ := h
          exact ⟨hc, hm⟩
        rcases tOk with _ | _
        · rcases rOk with _ | _ <;>
            simpa [check_and_trigger, save_state, g1, g2, g3, g4,
              CountMatchesHistory] using h
        · have h' := execute_trigger_preserves
            { s with yesterday_close := some yclose,
                     yesterday_close_date := some ydate }
            p yclose (drop_percent p yclose) .IntradayDip today now true hst
          rcases rOk with _ | _ <;>
            simpa [check_and_trigger, save_state, g1, g2, g3, g4] using h'
    · by_cases g3 : s.yesterday_close_date = some ydate <;>
        rcases rOk with _ | _ <;>
          simpa [check_and_trigger, save_state, g1, g2, g3, g4,
            CountMatchesHistory] using h
  | daily today now tc yc tOk =>
    show CountMatchesHistory (check_daily_close s today now tc yc tOk).1
    by_cases g1 : s.trigger_count ≥ MAX_TRIGGERS
    · simpa [check_daily_close, g1] using h
    by_cases g2 : s.last_trigger_date = some today
    · simpa [check_daily_close, g1, g2] using h
    rcases tc with _ | t
    · simpa [check_daily_close, g1, g2] using h
    rcases yc with _ | y
    · simpa [check_daily_close, g1, g2] using h
    by_cases g4 : drop_percent t y ≤ CLOSE_TO_CLOSE_THRESHOLD
    · rcases tOk with _ | _
      · simpa [check_daily_close, g1, g2, g4, save_state] using h
      · have h' := execute_trigger_preserves s t y (drop_percent t y)
          .CloseToClose today now true h
        simpa [check_daily_close, g1, g2, g4, save_state] using h'
    · simpa [check_daily_close, g1, g2, g4] using h

/-- The counting invariant holds along any run of scheduled cycles. -/
theorem runCycles_preserves (l : List CycleInput) (s : TriggerState)
    (h : CountMatchesHistory s) : CountMatchesHistory (runCycles s l) := by
  induction l generalizing s with
  | nil => exact h
  | cons i l ih => exact ih (applyCycle s i) (applyCycle_preserves s i h)

/-- C8: starting from the empty state, after any sequence of scheduled
cycles the persisted `trigger_count` equals the length of
`trigger_history` and the records are numbered `1..N` in insertion
order (so after N successful fires the count is N); moreover a
reference-close refresh cycle (price fetch missing, so no fire is
possible) changes neither the count, the history nor the last trigger
date. -/
theorem C8_monotonic_counting (inputs : List CycleInput) :
    ((runCycles default_state inputs).trigger_count =
        (runCycles default_state inputs).trigger_history.length ∧
      (runCycles default_state inputs).trigger_history.map
          TriggerRecord.number =
        List.range' 1 (runCycles default_state inputs).trigger_history.length) ∧
    (∀ (store : TriggerState) (today now : String) (yclose : ℚ)
        (ydate : String) (rOk tOk : Bool),
      (check_and_trigger store today now (some (yclose, ydate)) none rOk
            tOk).1.trigger_count = store.trigger_count ∧
      (check_and_trigger store today now (some (yclose, ydate)) none rOk
            tOk).1.trigger_history = store.trigger_history ∧
      (check_and_trigger store today now (some (yclose, ydate)) none rOk
            tOk).1.last_trigger_date = store.last_trigger_date) := by
  constructor
  · exact runCycles_preserves inputs default_state ⟨rfl, rfl⟩
  · intro store today now yclose ydate rOk tOk
    by_cases g1 : store.trigger_count ≥ MAX_TRIGGERS
    · simp [check_and_trigger, g1]
    by_cases g2 : store.last_trigger_date = some today
    · simp [check_and_trigger, g1, g2]
    by_cases g3 : store.yesterday_close_date = some ydate <;>
      rcases rOk with _ | _ <;>
        simp [check_and_trigger, save_state, g1, g2, g3]

/-! ## Claim C10: manual records break the completion email -/

/-- The history-table builder fails with the `drop_pct` key error as
soon as some record lacks that key. -/
theorem buildHistoryRows_error (l : List TriggerRecord) (t : TriggerRecord)
    (ht : t ∈ l) (hd : t.drop_pct = none) :
    buildHistoryRows l = .error "drop_pct" := by
  induction l with
  | nil => cases ht
  | cons t' ts ih =>
    rcases List.mem_cons.mp ht with h | h
    · subst h
      simp [buildHistoryRows, historyRow, hd, Bind.bind, Except.bind]
    · cases hdrop : t'.drop_pct with
      | none => simp [buildHistoryRows, historyRow, hdrop, Bind.bind, Except.bind]
      | some d =>
        simp [buildHistoryRows, historyRow, hdrop, ih h, Bind.bind, Except.bind]

/-- C10: the record appended by the manual script carries neither a
`drop_pct` nor a `yesterday_close` key, and for every state whose
history contains a record without the `drop_pct` key, building the
completion summary fails with the `drop_pct` key error instead of
rendering the table. -/
theorem C10_manual_record_breaks_completion :
    (∀ (n : Nat) (today now : String) (p : ℚ),
      (manual_record n today now p).drop_pct = none ∧
      (manual_record n today now p).yesterday_close = none) ∧
    (∀ (state : TriggerState) (t : TriggerRecord),
      t ∈ state.trigger_history → t.drop_pct = none →
      send_completion_email state = .error "drop_pct") := by
  constructor
  · intro n today now p
    exact ⟨rfl, rfl⟩
  · intro state t ht hd
    simp [send_completion_email, buildHistoryRows_error state.trigger_history t
      ht hd, Bind.bind, Except.bind]

/-- Witness for C10 at the state left behind by one manual-script
run. -/
theorem C10_witness :
    ((manual_record 1 "2026-01-01" "2026-01-01T00:00:00" 97000).drop_pct =
        none ∧
      (manual_record 1 "2026-01-01" "2026-01-01T00:00:00" 97000).yesterday_close =
        none) ∧
    send_completion_email manual_state = .error "drop_pct" :=
  ⟨C10_manual_record_breaks_completion.1 1 "2026-01-01" "2026-01-01T00:00:00"
      97000,
    C10_manual_record_breaks_completion.2 manual_state
      (manual_record 1 "2026-01-01" "2026-01-01T00:00:00" 97000)
      (by simp [manual_state]) rfl⟩

end RedDayDCA
